import Mathlib

/-!
Formal model of `tools/tickteer/tickteer.py`: the ticket data model, the
template substitution engine, priority-based ticket selection, the daemon
cycle, the ticket-source error handling, and the file-based `DatabaseLock`
(the latter modelled from the specification, since only its tests are in
the repository).  All definitions are executable; machine-level concerns
(actual subprocess I/O, sleeping, the filesystem) are abstracted into
explicit outcome parameters.
-/

namespace Tickteer

/-- Embeds the `Ticket` class of `tickteer.py`: the fields stored by
`Ticket.__init__`.  Python stores `priority` as the raw JSON value
(an integer in practice); all other fields are converted with `str`. -/
structure Ticket where
  id : String
  title : String
  description : String
  status : String
  priority : Int
  issue_type : String
  created_at : String
  created_by : String
  updated_at : String
deriving DecidableEq

/-- A raw ticket record as parsed from the ticket source's JSON output:
every field may be absent, matching the `data.get(key, default)` calls in
`Ticket.__init__`. -/
structure Record where
  id : Option String := none
  title : Option String := none
  description : Option String := none
  status : Option String := none
  priority : Option Int := none
  issue_type : Option String := none
  created_at : Option String := none
  created_by : Option String := none
  updated_at : Option String := none
deriving DecidableEq

/-- Embeds `Ticket.__init__`: each string field defaults to `""` when the
key is absent, and `priority` defaults to `0` (`data.get("priority", 0)`). -/
def Ticket.ofRecord (r : Record) : Ticket where
  id := r.id.getD ""
  title := r.title.getD ""
  description := r.description.getD ""
  status := r.status.getD ""
  priority := r.priority.getD 0
  issue_type := r.issue_type.getD ""
  created_at := r.created_at.getD ""
  created_by := r.created_by.getD ""
  updated_at := r.updated_at.getD ""

/-- Embeds `Ticket._get_priority_label`: a lookup in the `priority_labels`
dict with an `Unknown (N)` fallback.  The label prefixes reproduce the
exact (mojibake) characters present in the source file. -/
def Ticket.get_priority_label (t : Ticket) : String :=
  if t.priority = 0 then "üî¥ CRITICAL"
  else if t.priority = 1 then "üü† HIGH"
  else if t.priority = 2 then "üü° MEDIUM"
  else if t.priority = 3 then "üü¢ LOW"
  else if t.priority = 4 then "‚ö™ BACKLOG"
  else "Unknown (" ++ toString t.priority ++ ")"

/-- Embeds `Ticket._get_type_label`: a lookup in the `type_labels` dict,
falling back to the upper-cased issue type, then to `"UNKNOWN"` when empty.
(Python `str.upper` is modelled on its ASCII fragment by `String.toUpper`.) -/
def Ticket.get_type_label (t : Ticket) : String :=
  let result :=
    if t.issue_type = "bug" then "üêõ Bug"
    else if t.issue_type = "feature" then "‚ú® Feature"
    else if t.issue_type = "task" then "üìù Task"
    else t.issue_type.toUpper
  if result = "" then "UNKNOWN" else result

/-- Association-list model of the Python dict passed to
`TemplateEngine.render`; `List.lookup` models `dict.get`. -/
abbrev Fields := List (String × String)

/-- Embeds `Ticket.get_template_data`: the dict of all fields offered for
template substitution, in the source's insertion order.  (For a string
`s`, Python's `str(s) if s else ""` is the identity, so those conversions
disappear.) -/
def Ticket.get_template_data (t : Ticket) : Fields :=
  [("id", t.id), ("title", t.title), ("description", t.description),
   ("status", t.status), ("priority", toString t.priority),
   ("priority_label", t.get_priority_label), ("issue_type", t.issue_type),
   ("type_label", t.get_type_label), ("created_by", t.created_by),
   ("created_at", t.created_at), ("updated_at", t.updated_at)]

/-- The character class `[A-Za-z0-9_]` by which the specification describes
the placeholder identifiers.  The program's own class is `isWordChar` below,
which is strictly larger; this narrower spec-side class is what the
corrections of C8 and C10 compare against. -/
def isAsciiWordChar (c : Char) : Bool :=
  c.isAlphanum || c = '_'

/-- The maximal runs of Unicode code points matched by `\w` in CPython 3.11
with a `str` pattern (underscore plus everything `str.isalnum` accepts, per
the Unicode character database), enumerated from the `re` module's behaviour
on every scalar value.  No range overlaps the surrogate block, so every
member is a valid `Char`. -/
def wordRanges : List (Nat × Nat) :=
  [(48, 57), (65, 90), (95, 95), (97, 122), (170, 170), (178, 179), (181, 181), (185, 186),
   (188, 190), (192, 214), (216, 246), (248, 705), (710, 721), (736, 740), (748, 748),
   (750, 750), (880, 884), (886, 887), (890, 893), (895, 895), (902, 902), (904, 906),
   (908, 908), (910, 929), (931, 1013), (1015, 1153), (1162, 1327), (1329, 1366), (1369, 1369),
   (1376, 1416), (1488, 1514), (1519, 1522), (1568, 1610), (1632, 1641), (1646, 1647),
   (1649, 1747), (1749, 1749), (1765, 1766), (1774, 1788), (1791, 1791), (1808, 1808),
   (1810, 1839), (1869, 1957), (1969, 1969), (1984, 2026), (2036, 2037), (2042, 2042),
   (2048, 2069), (2074, 2074), (2084, 2084), (2088, 2088), (2112, 2136), (2144, 2154),
   (2160, 2183), (2185, 2190), (2208, 2249), (2308, 2361), (2365, 2365), (2384, 2384),
   (2392, 2401), (2406, 2415), (2417, 2432), (2437, 2444), (2447, 2448), (2451, 2472),
   (2474, 2480), (2482, 2482), (2486, 2489), (2493, 2493), (2510, 2510), (2524, 2525),
   (2527, 2529), (2534, 2545), (2548, 2553), (2556, 2556), (2565, 2570), (2575, 2576),
   (2579, 2600), (2602, 2608), (2610, 2611), (2613, 2614), (2616, 2617), (2649, 2652),
   (2654, 2654), (2662, 2671), (2674, 2676), (2693, 2701), (2703, 2705), (2707, 2728),
   (2730, 2736), (2738, 2739), (2741, 2745), (2749, 2749), (2768, 2768), (2784, 2785),
   (2790, 2799), (2809, 2809), (2821, 2828), (2831, 2832), (2835, 2856), (2858, 2864),
   (2866, 2867), (2869, 2873), (2877, 2877), (2908, 2909), (2911, 2913), (2918, 2927),
   (2929, 2935), (2947, 2947), (2949, 2954), (2958, 2960), (2962, 2965), (2969, 2970),
   (2972, 2972), (2974, 2975), (2979, 2980), (2984, 2986), (2990, 3001), (3024, 3024),
   (3046, 3058), (3077, 3084), (3086, 3088), (3090, 3112), (3114, 3129), (3133, 3133),
   (3160, 3162), (3165, 3165), (3168, 3169), (3174, 3183), (3192, 3198), (3200, 3200),
   (3205, 3212), (3214, 3216), (3218, 3240), (3242, 3251), (3253, 3257), (3261, 3261),
   (3293, 3294), (3296, 3297), (3302, 3311), (3313, 3314), (3332, 3340), (3342, 3344),
   (3346, 3386), (3389, 3389), (3406, 3406), (3412, 3414), (3416, 3425), (3430, 3448),
   (3450, 3455), (3461, 3478), (3482, 3505), (3507, 3515), (3517, 3517), (3520, 3526),
   (3558, 3567), (3585, 3632), (3634, 3635), (3648, 3654), (3664, 3673), (3713, 3714),
   (3716, 3716), (3718, 3722), (3724, 3747), (3749, 3749), (3751, 3760), (3762, 3763),
   (3773, 3773), (3776, 3780), (3782, 3782), (3792, 3801), (3804, 3807), (3840, 3840),
   (3872, 3891), (3904, 3911), (3913, 3948), (3976, 3980), (4096, 4138), (4159, 4169),
   (4176, 4181), (4186, 4189), (4193, 4193), (4197, 4198), (4206, 4208), (4213, 4225),
   (4238, 4238), (4240, 4249), (4256, 4293), (4295, 4295), (4301, 4301), (4304, 4346),
   (4348, 4680), (4682, 4685), (4688, 4694), (4696, 4696), (4698, 4701), (4704, 4744),
   (4746, 4749), (4752, 4784), (4786, 4789), (4792, 4798), (4800, 4800), (4802, 4805),
   (4808, 4822), (4824, 4880), (4882, 4885), (4888, 4954), (4969, 4988), (4992, 5007),
   (5024, 5109), (5112, 5117), (5121, 5740), (5743, 5759), (5761, 5786), (5792, 5866),
   (5870, 5880), (5888, 5905), (5919, 5937), (5952, 5969), (5984, 5996), (5998, 6000),
   (6016, 6067), (6103, 6103), (6108, 6108), (6112, 6121), (6128, 6137), (6160, 6169),
   (6176, 6264), (6272, 6276), (6279, 6312), (6314, 6314), (6320, 6389), (6400, 6430),
   (6470, 6509), (6512, 6516), (6528, 6571), (6576, 6601), (6608, 6618), (6656, 6678),
   (6688, 6740), (6784, 6793), (6800, 6809), (6823, 6823), (6917, 6963), (6981, 6988),
   (6992, 7001), (7043, 7072), (7086, 7141), (7168, 7203), (7232, 7241), (7245, 7293),
   (7296, 7304), (7312, 7354), (7357, 7359), (7401, 7404), (7406, 7411), (7413, 7414),
   (7418, 7418), (7424, 7615), (7680, 7957), (7960, 7965), (7968, 8005), (8008, 8013),
   (8016, 8023), (8025, 8025), (8027, 8027), (8029, 8029), (8031, 8061), (8064, 8116),
   (8118, 8124), (8126, 8126), (8130, 8132), (8134, 8140), (8144, 8147), (8150, 8155),
   (8160, 8172), (8178, 8180), (8182, 8188), (8304, 8305), (8308, 8313), (8319, 8329),
   (8336, 8348), (8450, 8450), (8455, 8455), (8458, 8467), (8469, 8469), (8473, 8477),
   (8484, 8484), (8486, 8486), (8488, 8488), (8490, 8493), (8495, 8505), (8508, 8511),
   (8517, 8521), (8526, 8526), (8528, 8585), (9312, 9371), (9450, 9471), (10102, 10131),
   (11264, 11492), (11499, 11502), (11506, 11507), (11517, 11517), (11520, 11557),
   (11559, 11559), (11565, 11565), (11568, 11623), (11631, 11631), (11648, 11670),
   (11680, 11686), (11688, 11694), (11696, 11702), (11704, 11710), (11712, 11718),
   (11720, 11726), (11728, 11734), (11736, 11742), (11823, 11823), (12293, 12295),
   (12321, 12329), (12337, 12341), (12344, 12348), (12353, 12438), (12445, 12447),
   (12449, 12538), (12540, 12543), (12549, 12591), (12593, 12686), (12690, 12693),
   (12704, 12735), (12784, 12799), (12832, 12841), (12872, 12879), (12881, 12895),
   (12928, 12937), (12977, 12991), (13312, 19903), (19968, 42124), (42192, 42237),
   (42240, 42508), (42512, 42539), (42560, 42606), (42623, 42653), (42656, 42735),
   (42775, 42783), (42786, 42888), (42891, 42954), (42960, 42961), (42963, 42963),
   (42965, 42969), (42994, 43009), (43011, 43013), (43015, 43018), (43020, 43042),
   (43056, 43061), (43072, 43123), (43138, 43187), (43216, 43225), (43250, 43255),
   (43259, 43259), (43261, 43262), (43264, 43301), (43312, 43334), (43360, 43388),
   (43396, 43442), (43471, 43481), (43488, 43492), (43494, 43518), (43520, 43560),
   (43584, 43586), (43588, 43595), (43600, 43609), (43616, 43638), (43642, 43642),
   (43646, 43695), (43697, 43697), (43701, 43702), (43705, 43709), (43712, 43712),
   (43714, 43714), (43739, 43741), (43744, 43754), (43762, 43764), (43777, 43782),
   (43785, 43790), (43793, 43798), (43808, 43814), (43816, 43822), (43824, 43866),
   (43868, 43881), (43888, 44002), (44016, 44025), (44032, 55203), (55216, 55238),
   (55243, 55291), (63744, 64109), (64112, 64217), (64256, 64262), (64275, 64279),
   (64285, 64285), (64287, 64296), (64298, 64310), (64312, 64316), (64318, 64318),
   (64320, 64321), (64323, 64324), (64326, 64433), (64467, 64829), (64848, 64911),
   (64914, 64967), (65008, 65019), (65136, 65140), (65142, 65276), (65296, 65305),
   (65313, 65338), (65345, 65370), (65382, 65470), (65474, 65479), (65482, 65487),
   (65490, 65495), (65498, 65500), (65536, 65547), (65549, 65574), (65576, 65594),
   (65596, 65597), (65599, 65613), (65616, 65629), (65664, 65786), (65799, 65843),
   (65856, 65912), (65930, 65931), (66176, 66204), (66208, 66256), (66273, 66299),
   (66304, 66339), (66349, 66378), (66384, 66421), (66432, 66461), (66464, 66499),
   (66504, 66511), (66513, 66517), (66560, 66717), (66720, 66729), (66736, 66771),
   (66776, 66811), (66816, 66855), (66864, 66915), (66928, 66938), (66940, 66954),
   (66956, 66962), (66964, 66965), (66967, 66977), (66979, 66993), (66995, 67001),
   (67003, 67004), (67072, 67382), (67392, 67413), (67424, 67431), (67456, 67461),
   (67463, 67504), (67506, 67514), (67584, 67589), (67592, 67592), (67594, 67637),
   (67639, 67640), (67644, 67644), (67647, 67669), (67672, 67702), (67705, 67742),
   (67751, 67759), (67808, 67826), (67828, 67829), (67835, 67867), (67872, 67897),
   (67968, 68023), (68028, 68047), (68050, 68096), (68112, 68115), (68117, 68119),
   (68121, 68149), (68160, 68168), (68192, 68222), (68224, 68255), (68288, 68295),
   (68297, 68324), (68331, 68335), (68352, 68405), (68416, 68437), (68440, 68466),
   (68472, 68497), (68521, 68527), (68608, 68680), (68736, 68786), (68800, 68850),
   (68858, 68899), (68912, 68921), (69216, 69246), (69248, 69289), (69296, 69297),
   (69376, 69415), (69424, 69445), (69457, 69460), (69488, 69505), (69552, 69579),
   (69600, 69622), (69635, 69687), (69714, 69743), (69745, 69746), (69749, 69749),
   (69763, 69807), (69840, 69864), (69872, 69881), (69891, 69926), (69942, 69951),
   (69956, 69956), (69959, 69959), (69968, 70002), (70006, 70006), (70019, 70066),
   (70081, 70084), (70096, 70106), (70108, 70108), (70113, 70132), (70144, 70161),
   (70163, 70187), (70272, 70278), (70280, 70280), (70282, 70285), (70287, 70301),
   (70303, 70312), (70320, 70366), (70384, 70393), (70405, 70412), (70415, 70416),
   (70419, 70440), (70442, 70448), (70450, 70451), (70453, 70457), (70461, 70461),
   (70480, 70480), (70493, 70497), (70656, 70708), (70727, 70730), (70736, 70745),
   (70751, 70753), (70784, 70831), (70852, 70853), (70855, 70855), (70864, 70873),
   (71040, 71086), (71128, 71131), (71168, 71215), (71236, 71236), (71248, 71257),
   (71296, 71338), (71352, 71352), (71360, 71369), (71424, 71450), (71472, 71483),
   (71488, 71494), (71680, 71723), (71840, 71922), (71935, 71942), (71945, 71945),
   (71948, 71955), (71957, 71958), (71960, 71983), (71999, 71999), (72001, 72001),
   (72016, 72025), (72096, 72103), (72106, 72144), (72161, 72161), (72163, 72163),
   (72192, 72192), (72203, 72242), (72250, 72250), (72272, 72272), (72284, 72329),
   (72349, 72349), (72368, 72440), (72704, 72712), (72714, 72750), (72768, 72768),
   (72784, 72812), (72818, 72847), (72960, 72966), (72968, 72969), (72971, 73008),
   (73030, 73030), (73040, 73049), (73056, 73061), (73063, 73064), (73066, 73097),
   (73112, 73112), (73120, 73129), (73440, 73458), (73648, 73648), (73664, 73684),
   (73728, 74649), (74752, 74862), (74880, 75075), (77712, 77808), (77824, 78894),
   (82944, 83526), (92160, 92728), (92736, 92766), (92768, 92777), (92784, 92862),
   (92864, 92873), (92880, 92909), (92928, 92975), (92992, 92995), (93008, 93017),
   (93019, 93025), (93027, 93047), (93053, 93071), (93760, 93846), (93952, 94026),
   (94032, 94032), (94099, 94111), (94176, 94177), (94179, 94179), (94208, 100343),
   (100352, 101589), (101632, 101640), (110576, 110579), (110581, 110587), (110589, 110590),
   (110592, 110882), (110928, 110930), (110948, 110951), (110960, 111355), (113664, 113770),
   (113776, 113788), (113792, 113800), (113808, 113817), (119520, 119539), (119648, 119672),
   (119808, 119892), (119894, 119964), (119966, 119967), (119970, 119970), (119973, 119974),
   (119977, 119980), (119982, 119993), (119995, 119995), (119997, 120003), (120005, 120069),
   (120071, 120074), (120077, 120084), (120086, 120092), (120094, 120121), (120123, 120126),
   (120128, 120132), (120134, 120134), (120138, 120144), (120146, 120485), (120488, 120512),
   (120514, 120538), (120540, 120570), (120572, 120596), (120598, 120628), (120630, 120654),
   (120656, 120686), (120688, 120712), (120714, 120744), (120746, 120770), (120772, 120779),
   (120782, 120831), (122624, 122654), (123136, 123180), (123191, 123197), (123200, 123209),
   (123214, 123214), (123536, 123565), (123584, 123627), (123632, 123641), (124896, 124902),
   (124904, 124907), (124909, 124910), (124912, 124926), (124928, 125124), (125127, 125135),
   (125184, 125251), (125259, 125259), (125264, 125273), (126065, 126123), (126125, 126127),
   (126129, 126132), (126209, 126253), (126255, 126269), (126464, 126467), (126469, 126495),
   (126497, 126498), (126500, 126500), (126503, 126503), (126505, 126514), (126516, 126519),
   (126521, 126521), (126523, 126523), (126530, 126530), (126535, 126535), (126537, 126537),
   (126539, 126539), (126541, 126543), (126545, 126546), (126548, 126548), (126551, 126551),
   (126553, 126553), (126555, 126555), (126557, 126557), (126559, 126559), (126561, 126562),
   (126564, 126564), (126567, 126570), (126572, 126578), (126580, 126583), (126585, 126588),
   (126590, 126590), (126592, 126601), (126603, 126619), (126625, 126627), (126629, 126633),
   (126635, 126651), (127232, 127244), (130032, 130041), (131072, 173791), (173824, 177976),
   (177984, 178205), (178208, 183969), (183984, 191456), (194560, 195101), (196608, 201546)]

/-- Embeds the character class `\w` of `TemplateEngine.PLACEHOLDER_PATTERN`.
The pattern is a `str` regex, so `\w` has its Unicode meaning: `{{café}}`
is a placeholder even though `é` lies outside `[A-Za-z0-9_]`.  Code points
below 128 are special-cased (there `\w` is exactly `[A-Za-z0-9_]`, which
agrees with `wordRanges`); all others are looked up in `wordRanges`. -/
def isWordChar (c : Char) : Bool :=
  if c.toNat < 128 then c.isAlphanum || c = '_'
  else wordRanges.any fun r => decide (r.1 ≤ c.toNat) && decide (c.toNat ≤ r.2)

/-- Fuel-indexed left-to-right scan embedding
`PLACEHOLDER_PATTERN.sub(replace_placeholder, template)` from
`TemplateEngine.render`: at each position, a match requires two braces, a
maximal non-empty run of word characters — the class `isWordChar`, i.e.
Python's Unicode-aware `\w` (`\w+` is greedy and cannot consume a closing
brace, so no backtracking arises) — then two closing braces.  A matched placeholder is replaced by `data.get(key)` when the key
exists and is kept verbatim otherwise (`replace_placeholder`); on a failed
match the scan advances one character, exactly as `re.sub` resumes at the
next position.  The fuel only drives structural recursion; it is
irrelevant once it is at least the length of the input. -/
def renderFuel (data : Fields) : Nat → List Char → List Char
  | 0, l => l
  | fuel+1, l =>
    match l with
    | [] => []
    | c :: rest =>
      if c = '\x7b' ∧ rest.head? = some '\x7b' then
        let w := rest.tail.takeWhile isWordChar
        let rest2 := rest.tail.dropWhile isWordChar
        if w ≠ [] ∧ rest2.take 2 = ['\x7d', '\x7d'] then
          (match data.lookup (String.mk w) with
            | some v => v.data
            | none => '\x7b' :: '\x7b' :: (w ++ ['\x7d', '\x7d'])) ++
            renderFuel data fuel (rest2.drop 2)
        else c :: renderFuel data fuel rest
      else c :: renderFuel data fuel rest

/-- The substitution scan at its natural fuel (the input length). -/
def renderAux (data : Fields) (l : List Char) : List Char :=
  renderFuel data l.length l

/-- Embeds `TemplateEngine.render` at the string level. -/
def render (template : String) (data : Fields) : String :=
  String.mk (renderAux data template.data)

/-- Fuel-indexed placeholder-occurrence scan, parametric in the
word-character class `wc`: `true` iff the input contains a substring that
the placeholder pattern over `wc` matches.  It mirrors the match condition
of `renderFuel` exactly.  Instantiated at `isWordChar` it describes the
program's scan; instantiated at `isAsciiWordChar` it describes the narrower
placeholder notion written in the specification. -/
def placeholderFuel (wc : Char → Bool) : Nat → List Char → Bool
  | 0, _ => false
  | fuel+1, l =>
    match l with
    | [] => false
    | c :: rest =>
      if c = '\x7b' ∧ rest.head? = some '\x7b' then
        if rest.tail.takeWhile wc ≠ [] ∧
            (rest.tail.dropWhile wc).take 2 = ['\x7d', '\x7d'] then
          true
        else placeholderFuel wc fuel rest
      else placeholderFuel wc fuel rest

/-- Placeholder-occurrence predicate over a word-character class, at its
natural fuel. -/
def containsPlaceholderP (wc : Char → Bool) (l : List Char) : Bool :=
  placeholderFuel wc l.length l

/-- The program's placeholder-occurrence predicate: the class is `\w`. -/
def containsPlaceholder (l : List Char) : Bool :=
  containsPlaceholderP isWordChar l

/-- Stable insertion of a ticket into a priority-sorted list: the new
ticket goes before the first ticket of greater-or-equal priority, so a
ticket earlier in the original list always precedes later tickets of the
same priority. -/
def insertByPriority (t : Ticket) : List Ticket → List Ticket
  | [] => [t]
  | u :: us =>
    if t.priority ≤ u.priority then t :: u :: us
    else u :: insertByPriority t us

/-- Embeds `Tickteer.sort_tickets_by_priority`, i.e.
`sorted(tickets, key=lambda t: t.priority)`.  Python's `sorted` is a
stable sort on the priority key; its output is the unique stable
priority-ordering of the input, realised here by stable insertion sort. -/
def sort_tickets_by_priority : List Ticket → List Ticket
  | [] => []
  | t :: ts => insertByPriority t (sort_tickets_by_priority ts)

/-- The first ticket of numerically smallest priority in a list (ties
resolved toward the earlier element).  Characterises the head of the
stable sort; used to state the selection claims. -/
def firstMin : List Ticket → Option Ticket
  | [] => none
  | t :: ts =>
    match firstMin ts with
    | none => some t
    | some u => if t.priority ≤ u.priority then some t else some u

/-- Outcome of invoking the external ticket source
(`subprocess.run([bd, "ready", "--json"], ..., check=True)` followed by
`json.loads`): either a parsed array of records, or one of the three
failure modes handled in `Tickteer.get_ready_tickets`. -/
inductive SourceOutcome where
  | ok (records : List Record)
  | commandNotFound
  | nonZeroExit (code : Int)
  | badJson
deriving DecidableEq

/-- Embeds `Tickteer.get_ready_tickets`: on success the records become
tickets; each failure mode prints to stderr and calls `sys.exit(1)`,
modelled as `Except.error 1` (the process exit status). -/
def get_ready_tickets : SourceOutcome → Except Nat (List Ticket)
  | .ok records => .ok (records.map Ticket.ofRecord)
  | .commandNotFound => .error 1
  | .nonZeroExit _ => .error 1
  | .badJson => .error 1

/-- Embeds `Tickteer.get_most_important_ticket`: fetch, return `None` on
an empty list, otherwise the head of the priority-sorted list. -/
def get_most_important_ticket (o : SourceOutcome) : Except Nat (Option Ticket) :=
  (get_ready_tickets o).map fun tickets =>
    if tickets.isEmpty then none
    else (sort_tickets_by_priority tickets).head?

/-- Embeds the non-daemon branch of `Tickteer.run`: fetch and sort (the
sorted list is then displayed). -/
def run_once (o : SourceOutcome) : Except Nat (List Ticket) :=
  (get_ready_tickets o).map sort_tickets_by_priority

/-- Outcome of running the per-ticket shell command
(`subprocess.run(..., timeout=300)`): it either completes with an exit
status or hits the 5-minute timeout (`subprocess.TimeoutExpired`). -/
inductive ExecOutcome where
  | completed (returncode : Int)
  | timedOut
deriving DecidableEq

/-- Embeds the result of `Tickteer.execute_command`: `True` exactly when
the command completed with exit status zero (`result.returncode == 0`);
a timeout is caught and yields `False`. -/
def execute_command : ExecOutcome → Bool
  | .completed rc => rc == 0
  | .timedOut => false

/-- The daemon's mutable per-process state in `Tickteer.run_daemon`:
`processed_count` and `last_ticket_id` (initially `0` and `None`). -/
structure DaemonState where
  processed_count : Nat
  last_ticket_id : Option String
deriving DecidableEq

/-- What a single daemon cycle did besides sleeping: found no ticket,
skipped the already-processed ticket (no rendering, no execution), or
executed the command on a ticket with the rendered template on stdin. -/
inductive CycleAction where
  | noTickets
  | skippedSame (id : String)
  | executed (t : Ticket) (stdin : String) (success : Bool)
deriving DecidableEq

/-- Embeds one iteration of the `while True` loop body of
`Tickteer.run_daemon`.  The external world of one cycle is abstracted as
the source outcome `o` and the command outcome `exec`; sleeping is
implicit (every non-error branch sleeps `interval` seconds and loops).
`Except.error` models the `sys.exit(1)` raised inside
`get_ready_tickets`, which no handler in `run_daemon` catches.
The comparison `ticket.id == last_ticket_id` is `False` whenever
`last_ticket_id` is `None`, which `some t.id = s.last_ticket_id` mirrors. -/
def daemonCycle (o : SourceOutcome) (template : String)
    (exec : Ticket → ExecOutcome) (s : DaemonState) :
    Except Nat (DaemonState × CycleAction) :=
  match get_most_important_ticket o with
  | .error code => .error code
  | .ok none => .ok (s, .noTickets)
  | .ok (some t) =>
    if some t.id = s.last_ticket_id then
      .ok (s, .skippedSame t.id)
    else
      let stdin := render template t.get_template_data
      if execute_command (exec t) then
        .ok ({ processed_count := s.processed_count + 1,
               last_ticket_id := some t.id },
             .executed t stdin true)
      else
        .ok (s, .executed t stdin false)

/-- Modelled from the spec: the `DatabaseLock` implementation is absent
from the repository sources (`tests/test_locking.py` imports it from
`tickteer`, which does not define it).  Spec section 3 gives the handle
states `Unlocked` and `Locked`. -/
inductive LockState where
  | Unlocked
  | Locked
deriving DecidableEq

/-- Modelled from the spec: a `DatabaseLock` handle is bound to a
filesystem `path` and an `owner` process identifier, carrying its
`Unlocked`/`Locked` state. -/
structure LockHandle where
  path : String
  owner : Nat
  state : LockState
deriving DecidableEq

/-- Modelled from the spec: a freshly constructed handle is bound to a
path but unlocked. -/
def LockHandle.new (path : String) (owner : Nat) : LockHandle :=
  { path := path, owner := owner, state := .Unlocked }

/-- The lock marker file at the handle's path: `some pid` when a marker
with that owner content exists, `none` when absent. -/
abbrev Marker := Option Nat

/-- Modelled from the spec: `release()`.  If the handle does not hold the
lock it is a safe no-op that never raises; if held, the marker file is
deleted (an already-missing marker is swallowed, and any other deletion
failure still lets the in-memory state transition) and the handle becomes
`Unlocked`.  Totality of this function is the "never raises" contract. -/
def release (h : LockHandle) (fs : Marker) : LockHandle × Marker :=
  match h.state with
  | .Unlocked => (h, fs)
  | .Locked => ({ h with state := .Unlocked }, none)

/-- Result of one `acquire` call: whether it succeeded, how many
exclusive-create attempts it made, and how many backoff ticks it slept. -/
structure AcquireResult where
  success : Bool
  attempts : Nat
  waitTicks : Nat
deriving DecidableEq

/-- Modelled from the spec: the retry loop of `acquire(timeout)`.  Time is
discretised into backoff ticks; `avail k` tells whether the atomic
create-exclusive attempt made after `k` elapsed ticks succeeds (the
marker may appear and disappear under concurrency).  Attempt `k` is made
immediately; on failure, if the elapsed time has reached the timeout the
call returns `false`, otherwise it sleeps one backoff tick and retries. -/
def acquireGo (avail : Nat → Bool) (k : Nat) : Nat → AcquireResult
  | 0 => { success := avail k, attempts := k + 1, waitTicks := k }
  | r + 1 =>
    if avail k then { success := true, attempts := k + 1, waitTicks := k }
    else acquireGo avail (k + 1) r

/-- Modelled from the spec: `acquire(timeout)` starts its attempts at
elapsed time zero with `timeout` ticks of budget. -/
def acquire (avail : Nat → Bool) (timeout : Nat) : AcquireResult :=
  acquireGo avail 0 timeout

/-- Concrete record fixtures used by the witnesses: the spec's example
tickets `{id: "A", priority: 2}` and `{id: "B", priority: 0}`. -/
def recA : Record := { id := some "A", priority := some 2 }

/-- The second example record, the one selection must choose. -/
def recB : Record := { id := some "B", priority := some 0 }

/-- A record with no priority key, for the default-priority witness. -/
def recNoPrio : Record := { id := some "N" }

theorem insertByPriority_head (t : Ticket) (l : List Ticket) :
    (insertByPriority t l).head? =
      match l.head? with
      | none => some t
      | some u => some (if t.priority ≤ u.priority then t else u) := by
  cases l with
  | nil => rfl
  | cons u us =>
    by_cases h : t.priority ≤ u.priority <;> simp [insertByPriority, h]

theorem firstMin_cons (t : Ticket) (ts : List Ticket) :
    firstMin (t :: ts) =
      match firstMin ts with
      | none => some t
      | some u => if t.priority ≤ u.priority then some t else some u := rfl

theorem sort_head_eq_firstMin (l : List Ticket) :
    (sort_tickets_by_priority l).head? = firstMin l := by
  induction l with
  | nil => rfl
  | cons t ts ih =>
    rw [sort_tickets_by_priority, insertByPriority_head, ih, firstMin_cons]
    cases firstMin ts with
    | none => rfl
    | some u => by_cases h : t.priority ≤ u.priority <;> simp [h]

theorem firstMin_cons_isSome (t : Ticket) (ts : List Ticket) :
    (firstMin (t :: ts)).isSome := by
  rw [firstMin_cons]
  cases firstMin ts with
  | none => rfl
  | some u => by_cases h : t.priority ≤ u.priority <;> simp [h]

theorem firstMin_eq_none (l : List Ticket) (h : firstMin l = none) : l = [] := by
  cases l with
  | nil => rfl
  | cons t ts =>
    have := firstMin_cons_isSome t ts
    rw [h] at this
    cases this

theorem firstMin_le (l : List Ticket) (t : Ticket) (h : firstMin l = some t) :
    ∀ u ∈ l, t.priority ≤ u.priority := by
  induction l generalizing t with
  | nil => cases h
  | cons x xs ih =>
    rw [firstMin_cons] at h
    cases hm : firstMin xs with
    | none =>
      rw [hm] at h
      obtain rfl := Option.some.inj h
      have hxs := firstMin_eq_none xs hm
      subst hxs
      intro u hu
      rcases List.mem_singleton.mp hu with rfl
      exact le_refl _
    | some v =>
      rw [hm] at h
      replace h : (if x.priority ≤ v.priority then some x else some v) = some t := h
      have hv := ih v hm
      by_cases hp : x.priority ≤ v.priority
      · rw [if_pos hp] at h
        obtain rfl := Option.some.inj h
        intro u hu
        rcases List.mem_cons.mp hu with rfl | hu
        · exact le_refl _
        · exact le_trans hp (hv u hu)
      · rw [if_neg hp] at h
        obtain rfl := Option.some.inj h
        intro u hu
        rcases List.mem_cons.mp hu with rfl | hu
        · exact le_of_lt (lt_of_not_le hp)
        · exact hv u hu

theorem firstMin_find? (l : List Ticket) (t : Ticket) (h : firstMin l = some t) :
    l.find? (fun u => decide (u.priority ≤ t.priority)) = some t := by
  induction l generalizing t with
  | nil => cases h
  | cons x xs ih =>
    rw [firstMin_cons] at h
    cases hm : firstMin xs with
    | none =>
      rw [hm] at h
      obtain rfl := Option.some.inj h
      rw [List.find?_cons_of_pos _ (by simp)]
    | some v =>
      rw [hm] at h
      replace h : (if x.priority ≤ v.priority then some x else some v) = some t := h
      by_cases hp : x.priority ≤ v.priority
      · rw [if_pos hp] at h
        obtain rfl := Option.some.inj h
        rw [List.find?_cons_of_pos _ (by simp)]
      · rw [if_neg hp] at h
        obtain rfl := Option.some.inj h
        rw [List.find?_cons_of_neg _ (by simpa using hp), ih _ hm]

/-- C1: for every non-empty fetched ticket list, `get_most_important_ticket`
returns a ticket of numerically smallest priority, and among tickets
sharing that smallest priority it is the one appearing first in the
source's original ordering (stable selection: it is the first list element
whose priority is less than or equal to the selected one). -/
theorem selection_picks_first_smallest (o : SourceOutcome) (l : List Ticket)
    (hfetch : get_ready_tickets o = .ok l) (hne : l ≠ []) :
    ∃ t, get_most_important_ticket o = .ok (some t) ∧
      (∀ u ∈ l, t.priority ≤ u.priority) ∧
      l.find? (fun u => decide (u.priority ≤ t.priority)) = some t := by
  have hsome : (firstMin l).isSome := by
    cases l with
    | nil => exact absurd rfl hne
    | cons x xs => exact firstMin_cons_isSome x xs
  obtain ⟨t, ht⟩ := Option.isSome_iff_exists.mp hsome
  have hemp : l.isEmpty = false := by
    cases l with
    | nil => exact absurd rfl hne
    | cons _ _ => rfl
  refine ⟨t, ?_, firstMin_le l t ht, firstMin_find? l t ht⟩
  unfold get_most_important_ticket
  rw [hfetch]
  simp only [Except.map, hemp, Bool.false_eq_true, if_false]
  rw [sort_head_eq_firstMin, ht]

/-- Witness for C1 at the spec's example tickets: of
`[{id: "A", priority: 2}, {id: "B", priority: 0}]` the selection picks
`"B"`. -/
theorem selection_picks_first_smallest_witness :
    get_ready_tickets (SourceOutcome.ok [recA, recB]) =
        .ok [Ticket.ofRecord recA, Ticket.ofRecord recB] ∧
    ([Ticket.ofRecord recA, Ticket.ofRecord recB] : List Ticket) ≠ [] ∧
    get_most_important_ticket (SourceOutcome.ok [recA, recB]) =
        .ok (some (Ticket.ofRecord recB)) ∧
    (∃ t, get_most_important_ticket (SourceOutcome.ok [recA, recB]) = .ok (some t) ∧
      (∀ u ∈ [Ticket.ofRecord recA, Ticket.ofRecord recB],
        t.priority ≤ u.priority) ∧
      [Ticket.ofRecord recA, Ticket.ofRecord recB].find?
        (fun u => decide (u.priority ≤ t.priority)) = some t) :=
  ⟨rfl, by decide, rfl,
    selection_picks_first_smallest _ _ rfl (by decide)⟩

/-- C2: in a cycle whose selected ticket has the same id as
`last_ticket_id`, the daemon executes no command, renders nothing and
leaves the state unchanged; the cycle only sleeps and restarts. -/
theorem same_ticket_skips_cycle (o : SourceOutcome) (template : String)
    (exec : Ticket → ExecOutcome) (s : DaemonState) (t : Ticket)
    (hsel : get_most_important_ticket o = .ok (some t))
    (hsame : some t.id = s.last_ticket_id) :
    daemonCycle o template exec s = .ok (s, .skippedSame t.id) := by
  unfold daemonCycle
  rw [hsel]
  simp [hsame]

/-- Witness for C2: with `lastProcessedId = "B"` and ticket `"B"` selected,
the cycle is skipped and the state untouched. -/
theorem same_ticket_skips_cycle_witness :
    get_most_important_ticket (SourceOutcome.ok [recB]) =
        .ok (some (Ticket.ofRecord recB)) ∧
    some (Ticket.ofRecord recB).id = (DaemonState.mk 1 (some "B")).last_ticket_id ∧
    daemonCycle (SourceOutcome.ok [recB]) "x" (fun _ => ExecOutcome.completed 0)
        (DaemonState.mk 1 (some "B")) =
      .ok (DaemonState.mk 1 (some "B"), .skippedSame (Ticket.ofRecord recB).id) :=
  ⟨rfl, rfl, same_ticket_skips_cycle _ _ _ _ _ rfl rfl⟩

/-- C3: when the selected ticket is new, a failed command execution
(non-zero exit status, or the five-minute timeout, both of which make
`execute_command` return false) leaves `last_ticket_id` and
`processed_count` unchanged and the cycle still ends normally; only a
zero exit status advances `last_ticket_id` and increments
`processed_count`. -/
theorem command_failure_frame (o : SourceOutcome) (template : String)
    (exec : Ticket → ExecOutcome) (s : DaemonState) (t : Ticket)
    (hsel : get_most_important_ticket o = .ok (some t))
    (hnew : some t.id ≠ s.last_ticket_id) :
    execute_command ExecOutcome.timedOut = false ∧
    (∀ rc : Int, rc ≠ 0 → execute_command (.completed rc) = false) ∧
    (execute_command (exec t) = false →
      daemonCycle o template exec s =
        .ok (s, .executed t (render template t.get_template_data) false)) ∧
    (execute_command (exec t) = true →
      daemonCycle o template exec s =
        .ok ({ processed_count := s.processed_count + 1,
               last_ticket_id := some t.id },
             .executed t (render template t.get_template_data) true)) := by
  refine ⟨rfl, ?_, ?_, ?_⟩
  · intro rc hrc
    simp [execute_command, hrc]
  · intro hf
    unfold daemonCycle
    rw [hsel]
    simp [hnew, hf]
  · intro ht
    unfold daemonCycle
    rw [hsel]
    simp [hnew, ht]

/-- Witness for C3: a timed-out execution on a fresh state leaves the
state at its initial value. -/
theorem command_failure_frame_witness :
    (some (Ticket.ofRecord recB).id ≠ (DaemonState.mk 0 none).last_ticket_id) ∧
    execute_command ((fun _ => ExecOutcome.timedOut) (Ticket.ofRecord recB)) = false ∧
    daemonCycle (SourceOutcome.ok [recB]) "" (fun _ => ExecOutcome.timedOut)
        (DaemonState.mk 0 none) =
      .ok (DaemonState.mk 0 none,
        .executed (Ticket.ofRecord recB)
          (render "" (Ticket.ofRecord recB).get_template_data) false) :=
  ⟨by decide, rfl,
    (command_failure_frame (SourceOutcome.ok [recB]) "" (fun _ => ExecOutcome.timedOut)
      (DaemonState.mk 0 none) (Ticket.ofRecord recB) rfl (by decide)).2.2.1 rfl⟩

/-- C7: every ticket-source failure mode (missing executable, non-zero
exit status, unparseable JSON) makes the fetch exit the whole process with
status 1, in one-shot mode and inside the daemon cycle alike; it never
yields an empty ticket list or a continuing cycle. -/
theorem source_failure_exits (o : SourceOutcome) (template : String)
    (exec : Ticket → ExecOutcome) (s : DaemonState)
    (hfail : ∀ records, o ≠ SourceOutcome.ok records) :
    get_ready_tickets o = .error 1 ∧
    run_once o = .error 1 ∧
    get_most_important_ticket o = .error 1 ∧
    daemonCycle o template exec s = .error 1 := by
  have hg : get_ready_tickets o = .error 1 := by
    cases o with
    | ok records => exact absurd rfl (hfail records)
    | commandNotFound => rfl
    | nonZeroExit c => rfl
    | badJson => rfl
  have hm : get_most_important_ticket o = .error 1 := by
    unfold get_most_important_ticket
    rw [hg]
    rfl
  refine ⟨hg, ?_, hm, ?_⟩
  · unfold run_once
    rw [hg]
    rfl
  · unfold daemonCycle
    rw [hm]

/-- Witness for C7 at the unparseable-JSON failure mode. -/
theorem source_failure_exits_witness :
    (∀ records, SourceOutcome.badJson ≠ SourceOutcome.ok records) ∧
    get_ready_tickets SourceOutcome.badJson = .error 1 ∧
    run_once SourceOutcome.badJson = .error 1 ∧
    get_most_important_ticket SourceOutcome.badJson = .error 1 ∧
    daemonCycle SourceOutcome.badJson "" (fun _ => ExecOutcome.timedOut)
        (DaemonState.mk 0 none) = .error 1 :=
  ⟨fun _ h => SourceOutcome.noConfusion h,
    source_failure_exits _ _ _ _ (fun _ h => SourceOutcome.noConfusion h)⟩

/-- C5: `acquire` with a zero timeout makes exactly one immediate
exclusive-create attempt, sleeps for no backoff tick, and returns the
result of that single attempt. -/
theorem acquire_zero_timeout_single_attempt (avail : Nat → Bool) :
    acquire avail 0 = { success := avail 0, attempts := 1, waitTicks := 0 } :=
  rfl

/-- C6: `release` always leaves the handle `Unlocked`, is idempotent on
the handle-and-marker state, and on a handle that never acquired the lock
it is a total no-op (modelled as a total function: it never raises). -/
theorem release_idempotent_total :
    (∀ (h : LockHandle) (fs : Marker),
      (release h fs).1.state = LockState.Unlocked) ∧
    (∀ (h : LockHandle) (fs : Marker),
      release (release h fs).1 (release h fs).2 = release h fs) ∧
    (∀ (path : String) (owner : Nat) (fs : Marker),
      release (LockHandle.new path owner) fs = (LockHandle.new path owner, fs)) := by
  refine ⟨?_, ?_, ?_⟩
  · intro h fs
    obtain ⟨p, ow, st⟩ := h
    cases st <;> rfl
  · intro h fs
    obtain ⟨p, ow, st⟩ := h
    cases st <;> rfl
  · intro path owner fs
    rfl

theorem firstMin_append_all_pos (t0 : Ticket) (h0 : t0.priority = 0) :
    ∀ l : List Ticket, (∀ u ∈ l, 0 < u.priority) →
      firstMin (l ++ [t0]) = some t0 := by
  intro l
  induction l with
  | nil => intro _; rfl
  | cons x xs ih =>
    intro hl
    have hx : 0 < x.priority := hl x (List.mem_cons_self x xs)
    have hxs : ∀ u ∈ xs, 0 < u.priority := fun u hu => hl u (List.mem_cons_of_mem x hu)
    show firstMin (x :: (xs ++ [t0])) = some t0
    rw [firstMin_cons, ih hxs]
    have hnle : ¬ x.priority ≤ t0.priority := by
      rw [h0]
      exact not_le.mpr hx
    simp [hnle]

/-- C9: a ticket built from a record without a priority key gets
priority 0, and such a ticket is selected ahead of every ticket with a
positive priority (even when it is last in the fetched order). -/
theorem missing_priority_is_critical :
    (∀ r : Record, r.priority = none → (Ticket.ofRecord r).priority = 0) ∧
    (∀ (r : Record) (l : List Ticket), r.priority = none →
      (∀ u ∈ l, 0 < u.priority) →
      (sort_tickets_by_priority (l ++ [Ticket.ofRecord r])).head? =
        some (Ticket.ofRecord r)) := by
  constructor
  · intro r hr
    simp [Ticket.ofRecord, hr]
  · intro r l hr hl
    rw [sort_head_eq_firstMin]
    exact firstMin_append_all_pos _ (by simp [Ticket.ofRecord, hr]) l hl

theorem renderFuel_nil (data : Fields) (fuel : Nat) :
    renderFuel data fuel [] = [] := by
  cases fuel <;> rfl

theorem renderFuel_cons (data : Fields) (fuel : Nat) (c : Char) (rest : List Char) :
    renderFuel data (fuel + 1) (c :: rest) =
      if c = '\x7b' ∧ rest.head? = some '\x7b' then
        if rest.tail.takeWhile isWordChar ≠ [] ∧
            (rest.tail.dropWhile isWordChar).take 2 = ['\x7d', '\x7d'] then
          (match data.lookup (String.mk (rest.tail.takeWhile isWordChar)) with
            | some v => v.data
            | none =>
              '\x7b' :: '\x7b' :: (rest.tail.takeWhile isWordChar ++ ['\x7d', '\x7d'])) ++
            renderFuel data fuel ((rest.tail.dropWhile isWordChar).drop 2)
        else c :: renderFuel data fuel rest
      else c :: renderFuel data fuel rest := rfl

theorem dropWhile_length_le (p : Char → Bool) (l : List Char) :
    (l.dropWhile p).length ≤ l.length :=
  (List.dropWhile_sublist p).length_le

theorem drop2_dropWhile_length_le (rest : List Char) :
    ((rest.tail.dropWhile isWordChar).drop 2).length ≤ rest.length := by
  have h3 := dropWhile_length_le isWordChar rest.tail
  have h5 := List.length_drop 2 (rest.tail.dropWhile isWordChar)
  have h4 : rest.tail.length = rest.length - 1 := List.length_tail rest
  omega

theorem renderFuel_congr (data : Fields) :
    ∀ (fuel fuel' : Nat) (l : List Char), l.length ≤ fuel → l.length ≤ fuel' →
      renderFuel data fuel l = renderFuel data fuel' l := by
  intro fuel
  induction fuel with
  | zero =>
    intro fuel' l hl _
    have : l = [] := List.length_eq_zero.mp (Nat.le_zero.mp hl)
    subst this
    rw [renderFuel_nil, renderFuel_nil]
  | succ fuel ih =>
    intro fuel' l hl hl'
    cases l with
    | nil => rw [renderFuel_nil, renderFuel_nil]
    | cons c rest =>
      cases fuel' with
      | zero => simp at hl'
      | succ fuel' =>
        rw [renderFuel_cons, renderFuel_cons]
        have hrest : rest.length ≤ fuel := by
          have := hl
          simp only [List.length_cons] at this
          omega
        have hrest' : rest.length ≤ fuel' := by
          have := hl'
          simp only [List.length_cons] at this
          omega
        have hdrop := drop2_dropWhile_length_le rest
        by_cases h1 : c = '\x7b' ∧ rest.head? = some '\x7b'
        · rw [if_pos h1, if_pos h1]
          by_cases h2 : rest.tail.takeWhile isWordChar ≠ [] ∧
              (rest.tail.dropWhile isWordChar).take 2 = ['\x7d', '\x7d']
          · rw [if_pos h2, if_pos h2]
            congr 1
            exact ih fuel' _ (le_trans hdrop hrest) (le_trans hdrop hrest')
          · rw [if_neg h2, if_neg h2, ih fuel' rest hrest hrest']
        · rw [if_neg h1, if_neg h1, ih fuel' rest hrest hrest']

theorem renderFuel_eq_renderAux (data : Fields) (fuel : Nat) (l : List Char)
    (h : l.length ≤ fuel) : renderFuel data fuel l = renderAux data l :=
  renderFuel_congr data fuel l.length l h (le_refl _)

theorem renderAux_cons (data : Fields) (c : Char) (rest : List Char) :
    renderAux data (c :: rest) =
      if c = '\x7b' ∧ rest.head? = some '\x7b' then
        if rest.tail.takeWhile isWordChar ≠ [] ∧
            (rest.tail.dropWhile isWordChar).take 2 = ['\x7d', '\x7d'] then
          (match data.lookup (String.mk (rest.tail.takeWhile isWordChar)) with
            | some v => v.data
            | none =>
              '\x7b' :: '\x7b' :: (rest.tail.takeWhile isWordChar ++ ['\x7d', '\x7d'])) ++
            renderAux data ((rest.tail.dropWhile isWordChar).drop 2)
        else c :: renderAux data rest
      else c :: renderAux data rest := by
  show renderFuel data (rest.length + 1) (c :: rest) = _
  rw [renderFuel_cons]
  by_cases h1 : c = '\x7b' ∧ rest.head? = some '\x7b'
  · rw [if_pos h1, if_pos h1]
    by_cases h2 : rest.tail.takeWhile isWordChar ≠ [] ∧
        (rest.tail.dropWhile isWordChar).take 2 = ['\x7d', '\x7d']
    · rw [if_pos h2, if_pos h2]
      congr 1
      exact renderFuel_eq_renderAux data _ _ (drop2_dropWhile_length_le rest)
    · rw [if_neg h2, if_neg h2]
      rfl
  · rw [if_neg h1, if_neg h1]
    rfl

theorem takeWhile_word_append (wc : Char → Bool) (hbrace : wc '\x7d' = false)
    (tl : List Char) :
    ∀ key : List Char, (∀ c ∈ key, wc c = true) →
      (key ++ '\x7d' :: tl).takeWhile wc = key ∧
      (key ++ '\x7d' :: tl).dropWhile wc = '\x7d' :: tl := by
  intro key
  induction key with
  | nil =>
    intro _
    exact ⟨List.takeWhile_cons_of_neg (by simp [hbrace]),
      List.dropWhile_cons_of_neg (by simp [hbrace])⟩
  | cons c key' ih =>
    intro hw
    have hc : wc c = true := hw c (List.mem_cons_self c key')
    obtain ⟨iht, ihd⟩ := ih fun x hx => hw x (List.mem_cons_of_mem c hx)
    constructor
    · rw [List.cons_append, List.takeWhile_cons_of_pos hc, iht]
    · rw [List.cons_append, List.dropWhile_cons_of_pos hc, ihd]

theorem renderAux_placeholder (data : Fields) (key tail : List Char)
    (hne : key ≠ []) (hw : ∀ c ∈ key, isWordChar c = true) :
    renderAux data ('\x7b' :: '\x7b' :: (key ++ '\x7d' :: '\x7d' :: tail)) =
      (match data.lookup (String.mk key) with
        | some v => v.data
        | none => '\x7b' :: '\x7b' :: (key ++ ['\x7d', '\x7d'])) ++
        renderAux data tail := by
  obtain ⟨ht, hd⟩ := takeWhile_word_append isWordChar (by decide) ('\x7d' :: tail) key hw
  rw [renderAux_cons]
  simp only [List.head?_cons, List.tail_cons]
  rw [ht, hd]
  rw [if_pos ⟨trivial, trivial⟩, if_pos ⟨hne, rfl⟩]
  rfl

theorem containsPlaceholderP_cons (wc : Char → Bool) (c : Char) (rest : List Char) :
    containsPlaceholderP wc (c :: rest) =
      if c = '\x7b' ∧ rest.head? = some '\x7b' then
        if rest.tail.takeWhile wc ≠ [] ∧
            (rest.tail.dropWhile wc).take 2 = ['\x7d', '\x7d'] then true
        else containsPlaceholderP wc rest
      else containsPlaceholderP wc rest := rfl

theorem containsPlaceholder_cons (c : Char) (rest : List Char) :
    containsPlaceholder (c :: rest) =
      if c = '\x7b' ∧ rest.head? = some '\x7b' then
        if rest.tail.takeWhile isWordChar ≠ [] ∧
            (rest.tail.dropWhile isWordChar).take 2 = ['\x7d', '\x7d'] then true
        else containsPlaceholder rest
      else containsPlaceholder rest := rfl

theorem containsP_of_decomp (wc : Char → Bool) (hbrace : wc '\x7d' = false) :
    ∀ (a w b : List Char), w ≠ [] → (∀ c ∈ w, wc c = true) →
      containsPlaceholderP wc
        (a ++ '\x7b' :: '\x7b' :: (w ++ '\x7d' :: '\x7d' :: b)) = true := by
  intro a
  induction a with
  | nil =>
    intro w b hne hw
    obtain ⟨ht, hd⟩ := takeWhile_word_append wc hbrace ('\x7d' :: b) w hw
    rw [List.nil_append, containsPlaceholderP_cons]
    simp only [List.head?_cons, List.tail_cons]
    rw [if_pos ⟨trivial, trivial⟩,
      if_pos ⟨by rw [ht]; exact hne, by rw [hd]; rfl⟩]
  | cons c a' ih =>
    intro w b hne hw
    rw [List.cons_append, containsPlaceholderP_cons]
    by_cases h1 : c = '\x7b' ∧
        (a' ++ '\x7b' :: '\x7b' :: (w ++ '\x7d' :: '\x7d' :: b)).head? = some '\x7b'
    · rw [if_pos h1]
      by_cases h2 : (a' ++ '\x7b' :: '\x7b' :: (w ++ '\x7d' :: '\x7d' :: b)).tail.takeWhile wc ≠ [] ∧
          ((a' ++ '\x7b' :: '\x7b' :: (w ++ '\x7d' :: '\x7d' :: b)).tail.dropWhile wc).take 2 =
            ['\x7d', '\x7d']
      · rw [if_pos h2]
      · rw [if_neg h2]
        exact ih w b hne hw
    · rw [if_neg h1]
      exact ih w b hne hw

theorem renderAux_empty_data : ∀ (n : Nat) (l : List Char), l.length ≤ n →
    renderAux ([] : Fields) l = l := by
  intro n
  induction n with
  | zero =>
    intro l hl
    have : l = [] := List.length_eq_zero.mp (Nat.le_zero.mp hl)
    subst this
    rfl
  | succ n ih =>
    intro l hl
    cases l with
    | nil => rfl
    | cons c rest =>
      have hrest : rest.length ≤ n := by
        simp only [List.length_cons] at hl
        omega
      rw [renderAux_cons]
      by_cases h1 : c = '\x7b' ∧ rest.head? = some '\x7b'
      · rw [if_pos h1]
        by_cases h2 : rest.tail.takeWhile isWordChar ≠ [] ∧
            (rest.tail.dropWhile isWordChar).take 2 = ['\x7d', '\x7d']
        · rw [if_pos h2]
          obtain ⟨hc, hh⟩ := h1
          subst hc
          cases rest with
          | nil => simp at hh
          | cons r rt =>
            obtain rfl : r = '\x7b' := by simpa using hh
            simp only [List.tail_cons] at h2 ⊢
            have hdrop : ((rt.dropWhile isWordChar).drop 2).length ≤ n := by
              have hw1 := dropWhile_length_le isWordChar rt
              have hw2 := List.length_drop 2 (rt.dropWhile isWordChar)
              simp only [List.length_cons] at hl
              omega
            rw [ih _ hdrop]
            show '\x7b' :: '\x7b' :: (rt.takeWhile isWordChar ++ ['\x7d', '\x7d']) ++
                (rt.dropWhile isWordChar).drop 2 = '\x7b' :: '\x7b' :: rt
            rw [List.cons_append, List.cons_append, List.append_assoc]
            congr 1
            congr 1
            rw [← h2.2, List.take_append_drop, List.takeWhile_append_dropWhile]
        · rw [if_neg h2, ih rest hrest]
      · rw [if_neg h1, ih rest hrest]

theorem renderAux_no_placeholder (data : Fields) : ∀ (n : Nat) (l : List Char),
    l.length ≤ n → containsPlaceholder l = false → renderAux data l = l := by
  intro n
  induction n with
  | zero =>
    intro l hl _
    have : l = [] := List.length_eq_zero.mp (Nat.le_zero.mp hl)
    subst this
    rfl
  | succ n ih =>
    intro l hl hc
    cases l with
    | nil => rfl
    | cons c rest =>
      have hrest : rest.length ≤ n := by
        simp only [List.length_cons] at hl
        omega
      rw [containsPlaceholder_cons] at hc
      rw [renderAux_cons]
      by_cases h1 : c = '\x7b' ∧ rest.head? = some '\x7b'
      · rw [if_pos h1] at hc ⊢
        by_cases h2 : rest.tail.takeWhile isWordChar ≠ [] ∧
            (rest.tail.dropWhile isWordChar).take 2 = ['\x7d', '\x7d']
        · rw [if_pos h2] at hc
          simp at hc
        · rw [if_neg h2] at hc ⊢
          rw [ih rest hrest hc]
      · rw [if_neg h1] at hc ⊢
        rw [ih rest hrest hc]

theorem containsPlaceholder_decomp : ∀ (n : Nat) (l : List Char), l.length ≤ n →
    containsPlaceholder l = true →
    ∃ a w b, l = a ++ '\x7b' :: '\x7b' :: (w ++ '\x7d' :: '\x7d' :: b) ∧
      w ≠ [] ∧ ∀ c ∈ w, isWordChar c = true := by
  intro n
  induction n with
  | zero =>
    intro l hl hc
    have : l = [] := List.length_eq_zero.mp (Nat.le_zero.mp hl)
    subst this
    simp [containsPlaceholder, containsPlaceholderP, placeholderFuel] at hc
  | succ n ih =>
    intro l hl hc
    cases l with
    | nil => simp [containsPlaceholder, containsPlaceholderP, placeholderFuel] at hc
    | cons c rest =>
      have hrest : rest.length ≤ n := by
        simp only [List.length_cons] at hl
        omega
      rw [containsPlaceholder_cons] at hc
      by_cases h1 : c = '\x7b' ∧ rest.head? = some '\x7b'
      · rw [if_pos h1] at hc
        by_cases h2 : rest.tail.takeWhile isWordChar ≠ [] ∧
            (rest.tail.dropWhile isWordChar).take 2 = ['\x7d', '\x7d']
        · obtain ⟨hcc, hh⟩ := h1
          subst hcc
          cases rest with
          | nil => simp at hh
          | cons r rt =>
            obtain rfl : r = '\x7b' := by simpa using hh
            simp only [List.tail_cons] at h2
            refine ⟨[], rt.takeWhile isWordChar, (rt.dropWhile isWordChar).drop 2,
              ?_, h2.1, ?_⟩
            · simp only [List.nil_append]
              congr 1
              congr 1
              conv_lhs => rw [← List.takeWhile_append_dropWhile isWordChar rt,
                ← List.take_append_drop 2 (rt.dropWhile isWordChar), h2.2]
              rfl
            · intro x hx
              exact List.all_eq_true.mp (@List.all_takeWhile Char isWordChar rt) x hx
        · rw [if_neg h2] at hc
          obtain ⟨a, w, b, heq, hwne, hww⟩ := ih rest hrest hc
          exact ⟨c :: a, w, b, by rw [List.cons_append, heq], hwne, hww⟩
      · rw [if_neg h1] at hc
        obtain ⟨a, w, b, heq, hwne, hww⟩ := ih rest hrest hc
        exact ⟨c :: a, w, b, by rw [List.cons_append, heq], hwne, hww⟩

/-- C4: a placeholder whose key is absent from the field mapping is left
verbatim in the output, wherever it occurs: not replaced, not removed, and
rendering continues after it without error. -/
theorem unknown_placeholder_left_verbatim (data : Fields) (key tail : List Char)
    (hne : key ≠ []) (hw : ∀ c ∈ key, isWordChar c = true)
    (habsent : data.lookup (String.mk key) = none) :
    renderAux data ('\x7b' :: '\x7b' :: (key ++ '\x7d' :: '\x7d' :: tail)) =
      '\x7b' :: '\x7b' :: (key ++ '\x7d' :: '\x7d' :: renderAux data tail) := by
  rw [renderAux_placeholder data key tail hne hw, habsent]
  simp [List.append_assoc]

/-- Witness for C4: the missing key of the spec's example, at the scanner
level and at the full string-level render of the example itself. -/
theorem unknown_placeholder_left_verbatim_witness :
    (['m', 'i', 's', 's', 'i', 'n', 'g'] : List Char) ≠ [] ∧
    (∀ c ∈ (['m', 'i', 's', 's', 'i', 'n', 'g'] : List Char), isWordChar c = true) ∧
    ([("id", "7")] : Fields).lookup (String.mk ['m', 'i', 's', 's', 'i', 'n', 'g']) = none ∧
    renderAux [("id", "7")]
        ('\x7b' :: '\x7b' :: (['m', 'i', 's', 's', 'i', 'n', 'g'] ++ '\x7d' :: '\x7d' :: [])) =
      '\x7b' :: '\x7b' :: (['m', 'i', 's', 's', 'i', 'n', 'g'] ++
        '\x7d' :: '\x7d' :: renderAux [("id", "7")] []) ∧
    render "\x7b\x7bid\x7d\x7d-\x7b\x7bmissing\x7d\x7d" [("id", "7")] =
      "7-\x7b\x7bmissing\x7d\x7d" :=
  ⟨by decide, by decide, by decide,
    unknown_placeholder_left_verbatim [("id", "7")] ['m', 'i', 's', 's', 'i', 'n', 'g'] []
      (by decide) (by decide) (by decide),
    by decide⟩

/-- C8 (amended): the scan substitutes exactly the substrings made of two
opening braces, a non-empty identifier of Python `\w` word characters, and
two closing braces.  On ASCII text that class is `[A-Za-z0-9_]`, but it
also admits non-ASCII Unicode word characters such as `é`, which refutes
the original claim's exclusivity (see `placeholder_not_ascii_only`).  A
template changed by rendering always contains such a `\w` substring, and
every such placeholder whose key is known is substituted by its value. -/
theorem placeholder_form_exact :
    (∀ (data : Fields) (l : List Char), renderAux data l ≠ l →
      ∃ a w b, l = a ++ '\x7b' :: '\x7b' :: (w ++ '\x7d' :: '\x7d' :: b) ∧
        w ≠ [] ∧ ∀ c ∈ w, isWordChar c = true) ∧
    (∀ (data : Fields) (key tail : List Char) (v : String), key ≠ [] →
      (∀ c ∈ key, isWordChar c = true) →
      data.lookup (String.mk key) = some v →
      renderAux data ('\x7b' :: '\x7b' :: (key ++ '\x7d' :: '\x7d' :: tail)) =
        v.data ++ renderAux data tail) := by
  constructor
  · intro data l hne
    by_cases hc : containsPlaceholder l = true
    · exact containsPlaceholder_decomp l.length l (le_refl _) hc
    · exact absurd
        (renderAux_no_placeholder data l.length l (le_refl _) (by simpa using hc)) hne
  · intro data key tail v hne hw hv
    rw [renderAux_placeholder data key tail hne hw, hv]

/-- Witness for C8: a template changed by the scan decomposes around a
placeholder; a known ASCII key is substituted; and a known key containing
the non-ASCII word character `é` is substituted as well. -/
theorem placeholder_form_exact_witness :
    (renderAux [("x", "1")] ("\x7b\x7bx\x7d\x7d".data) ≠ "\x7b\x7bx\x7d\x7d".data ∧
      ∃ a w b, "\x7b\x7bx\x7d\x7d".data =
          a ++ '\x7b' :: '\x7b' :: (w ++ '\x7d' :: '\x7d' :: b) ∧
        w ≠ [] ∧ ∀ c ∈ w, isWordChar c = true) ∧
    (([("x", "1")] : Fields).lookup (String.mk ['x']) = some "1" ∧
      renderAux [("x", "1")] ('\x7b' :: '\x7b' :: (['x'] ++ '\x7d' :: '\x7d' :: [])) =
        ("1" : String).data ++ renderAux [("x", "1")] []) ∧
    ((∀ c ∈ (['c', 'a', 'f', '\xE9'] : List Char), isWordChar c = true) ∧
      ([("caf\xE9", "X")] : Fields).lookup (String.mk ['c', 'a', 'f', '\xE9']) = some "X" ∧
      renderAux [("caf\xE9", "X")]
          ('\x7b' :: '\x7b' :: (['c', 'a', 'f', '\xE9'] ++ '\x7d' :: '\x7d' :: [])) =
        ("X" : String).data ++ renderAux [("caf\xE9", "X")] []) :=
  ⟨⟨by decide, placeholder_form_exact.1 [("x", "1")] _ (by decide)⟩,
    ⟨by decide, placeholder_form_exact.2 [("x", "1")] ['x'] [] "1"
      (by decide) (by decide) (by decide)⟩,
    ⟨by decide, by decide, placeholder_form_exact.2 [("caf\xE9", "X")]
      ['c', 'a', 'f', '\xE9'] [] "X" (by decide) (by decide) (by decide)⟩⟩

/-- C10 (amended): rendering with an empty field mapping is the identity
on every template; and any template containing no placeholder in the
code's `\w` sense — which, unlike the spec's `[A-Za-z0-9_]` reading, also
covers identifiers with non-ASCII word characters (see
`render_not_identity_without_ascii_placeholder`) — is left unchanged by
every mapping. -/
theorem render_identity_cases :
    (∀ t : String, render t [] = t) ∧
    (∀ (data : Fields) (t : String), containsPlaceholder t.data = false →
      render t data = t) := by
  constructor
  · intro t
    obtain ⟨l⟩ := t
    show String.mk (renderAux [] l) = String.mk l
    rw [renderAux_empty_data l.length l (le_refl _)]
  · intro data t hc
    obtain ⟨l⟩ := t
    show String.mk (renderAux data l) = String.mk l
    rw [renderAux_no_placeholder data l.length l (le_refl _) hc]

/-- Witness for C10: a placeholder-free template is untouched, with and
without bindings in the mapping. -/
theorem render_identity_cases_witness :
    containsPlaceholder ("abc-def".data) = false ∧
    render "abc-def" [("id", "7")] = "abc-def" ∧
    render "abc \x7bnot-one\x7d" [] = "abc \x7bnot-one\x7d" :=
  ⟨by decide, render_identity_cases.2 [("id", "7")] "abc-def" (by decide),
    render_identity_cases.1 "abc \x7bnot-one\x7d"⟩

/-- Counterexample to C8 as stated: the program substitutes a placeholder
whose identifier contains `é`, a character outside `[A-Za-z0-9_]`, so text
other than the claimed ASCII form is treated as a placeholder (Python `\w`
is Unicode-aware). -/
theorem placeholder_not_ascii_only :
    render "\x7b\x7bcaf\xE9\x7d\x7d" [("caf\xE9", "X")] = "X" ∧
    "X" ≠ "\x7b\x7bcaf\xE9\x7d\x7d" ∧
    ¬∃ a w b, ("\x7b\x7bcaf\xE9\x7d\x7d" : String).data =
        a ++ '\x7b' :: '\x7b' :: (w ++ '\x7d' :: '\x7d' :: b) ∧
      w ≠ [] ∧ ∀ c ∈ w, isAsciiWordChar c = true := by
  refine ⟨by decide, by decide, ?_⟩
  rintro ⟨a, w, b, heq, hne, hw⟩
  have h := containsP_of_decomp isAsciiWordChar (by decide) a w b hne hw
  rw [← heq] at h
  have h2 : containsPlaceholderP isAsciiWordChar
      ("\x7b\x7bcaf\xE9\x7d\x7d" : String).data = false := by decide
  rw [h2] at h
  exact Bool.noConfusion h

/-- Counterexample to C10 as stated: this template contains no placeholder
with a `[A-Za-z0-9_]` identifier, yet rendering it with a mapping binding
the accented identifier changes it, so render is not the identity on
templates without such a placeholder. -/
theorem render_not_identity_without_ascii_placeholder :
    (¬∃ a w b, ("a-\x7b\x7bcaf\xE9\x7d\x7d" : String).data =
        a ++ '\x7b' :: '\x7b' :: (w ++ '\x7d' :: '\x7d' :: b) ∧
      w ≠ [] ∧ ∀ c ∈ w, isAsciiWordChar c = true) ∧
    render "a-\x7b\x7bcaf\xE9\x7d\x7d" [("caf\xE9", "Y")] = "a-Y" ∧
    "a-Y" ≠ "a-\x7b\x7bcaf\xE9\x7d\x7d" := by
  refine ⟨?_, by decide, by decide⟩
  rintro ⟨a, w, b, heq, hne, hw⟩
  have h := containsP_of_decomp isAsciiWordChar (by decide) a w b hne hw
  rw [← heq] at h
  have h2 : containsPlaceholderP isAsciiWordChar
      ("a-\x7b\x7bcaf\xE9\x7d\x7d" : String).data = false := by decide
  rw [h2] at h
  exact Bool.noConfusion h

/-- Witness for C9: a priority-less record beats a priority-2 ticket
placed before it. -/
theorem missing_priority_is_critical_witness :
    recNoPrio.priority = none ∧
    (∀ u ∈ [Ticket.ofRecord recA], 0 < u.priority) ∧
    (Ticket.ofRecord recNoPrio).priority = 0 ∧
    (sort_tickets_by_priority
        ([Ticket.ofRecord recA] ++ [Ticket.ofRecord recNoPrio])).head? =
      some (Ticket.ofRecord recNoPrio) :=
  ⟨rfl, by decide, missing_priority_is_critical.1 recNoPrio rfl,
    missing_priority_is_critical.2 recNoPrio [Ticket.ofRecord recA] rfl (by decide)⟩

end Tickteer
